import Mathlib

/-!
# SmartClassroom environmental pipeline — verification development

Shallow embedding of the feature-engineering / forecasting / comfort
pipeline of `app.py` (the feature engineer and rule-based scorer are
shared verbatim with `static/model-code/Emotion-b2.py`).

Modelling conventions:
* sensor values are rationals (`ℚ`);
* a pandas column is a function `ℕ → Option ℚ`, where `none` stands for
  a missing value (NaN) at that row position;
* the pre-fit scaler / regressor / classifier artifacts are abstract
  parameters (an `MLEnv`), since their fitted coefficients live outside
  the repository;
* fallible pipeline stages return a dedicated result type
  (`ForecastResult`) with one constructor per early-return branch of
  `get_forecast_prediction`.
-/

namespace SmartClassroom

/-- One raw sensor+engagement snapshot, as produced by the IoT logger and
consumed by `get_forecast_prediction`.  The fields are exactly the
`required_cols` of app.py; because the structure is total, the explicit
`required_cols` presence check of the source is satisfied by
construction and needs no separate error branch here. -/
structure Reading where
  temperature : ℚ
  humidity : ℚ
  gas : ℚ
  light : ℚ
  sound : ℚ
  occupancy : ℚ
  high_engagement : ℚ
  low_engagement : ℚ
  hour : ℚ
  minute : ℚ
deriving DecidableEq, Repr, Inhabited

/-! ## Rule-based comfort scorer (`classify_comfort`, app.py lines 151–196) -/

/-- Translation of `classify_comfort`: the sequential `score += …`
accumulation of the Python source is written as the sum of the five
per-sensor contributions, followed by the same threshold chain. -/
def classify_comfort (temperature humidity gas light sound : ℚ) : ℕ :=
  let score : ℚ :=
    (if 22 ≤ temperature ∧ temperature ≤ 24 then 1
     else if 21 ≤ temperature ∧ temperature ≤ 25 then 1/2 else 0)
    + (if 30 ≤ humidity ∧ humidity ≤ 50 then 1
       else if 25 ≤ humidity ∧ humidity ≤ 55 then 1/2 else 0)
    + (if gas < 800 then 1
       else if gas < 1000 then 1/2 else 0)
    + (if 150 ≤ light ∧ light ≤ 250 then 1
       else if 100 ≤ light ∧ light ≤ 300 then 1/2 else 0)
    + (if 35 ≤ sound ∧ sound ≤ 60 then 1
       else if sound ≤ 70 then 1/2 else 0)
  if 4.5 ≤ score then 3
  else if 3 ≤ score then 2
  else if 1.5 ≤ score then 1
  else 0

/-- Translation of `comfort_labels_map = {0: 'Critical', 1: 'Poor',
2: 'Acceptable', 3: 'Optimal'}` of app.py. -/
def comfort_labels_map (c : ℕ) : String :=
  match c with
  | 0 => "Critical"
  | 1 => "Poor"
  | 2 => "Acceptable"
  | 3 => "Optimal"
  | _ => "Unknown"

/-! ## Pandas column primitives

The feature engineer applies `rolling`, `shift`, `diff`, `fillna` and
`dropna` to columns of a DataFrame.  A column is `ℕ → Option ℚ`. -/

/-- Column of values extracted from the readings table: position `i`
holds `f` of the `i`-th reading, and is missing beyond the table. -/
def colOf (df : List Reading) (f : Reading → ℚ) : ℕ → Option ℚ :=
  fun i => (df[i]?).map f

/-- Indices of the causal rolling window ending at row `i` for window
size `w`: the positions `max (i - w + 1) 0, …, i` in increasing order —
only past and current rows, never future ones (pandas `rolling` is
right-aligned, not centered). -/
def windowIdx (w i : ℕ) : List ℕ :=
  (List.range (i + 1)).filter (fun j => i + 1 - w ≤ j)

/-- Present (non-missing) values inside the rolling window ending at
`i`; pandas counts exactly these against `min_periods`. -/
def windowVals (c : ℕ → Option ℚ) (w i : ℕ) : List ℚ :=
  (windowIdx w i).filterMap c

/-- Embedding of `Series.rolling(window=w, min_periods=minp).mean()` at
row `i`: missing when fewer than `minp` values are present in the
window, otherwise the arithmetic mean of the present values. -/
def rollMean (minp w : ℕ) (c : ℕ → Option ℚ) : ℕ → Option ℚ := fun i =>
  let vals := windowVals c w i
  if vals.length < minp then none else some (vals.sum / vals.length)

/-- Embedding of `Series.rolling(window=w, min_periods=minp).min()`. -/
def rollMin (minp w : ℕ) (c : ℕ → Option ℚ) : ℕ → Option ℚ := fun i =>
  let vals := windowVals c w i
  if vals.length < minp then none else vals.min?

/-- Embedding of `Series.rolling(window=w, min_periods=minp).max()`. -/
def rollMax (minp w : ℕ) (c : ℕ → Option ℚ) : ℕ → Option ℚ := fun i =>
  let vals := windowVals c w i
  if vals.length < minp then none else vals.max?

/-- Sample variance (`ddof=1`) of a list of values, the square of what
`Series.std()` returns. -/
def sampleVar (l : List ℚ) : ℚ :=
  let m := l.sum / l.length
  (l.map (fun v => (v - m) ^ 2)).sum / ((l.length : ℚ) - 1)

/-- Embedding of `Series.rolling(window=w, min_periods=minp).std()` at
row `i`.  Pandas yields NaN when fewer than `minp` values are present
and also (because of `ddof=1`) when fewer than 2 are.  The present
value stored is the sample variance: pandas stores its square root,
which is irrational in general and hence not a rational; every property
proved below (definedness, and the value in the sub-2-sample case,
which is decided before any square root is taken) is unaffected. -/
def rollStd (minp w : ℕ) (c : ℕ → Option ℚ) : ℕ → Option ℚ := fun i =>
  let vals := windowVals c w i
  if vals.length < minp ∨ vals.length < 2 then none else some (sampleVar vals)

/-- Embedding of `Series.shift(n)`: the first `n` rows become missing. -/
def shiftCol (n : ℕ) (c : ℕ → Option ℚ) : ℕ → Option ℚ := fun i =>
  if i < n then none else c (i - n)

/-- Embedding of `Series.diff(n) = s - s.shift(n)`; missing where either
operand is. -/
def diffCol (n : ℕ) (c : ℕ → Option ℚ) : ℕ → Option ℚ := fun i =>
  (c i).bind fun a => (shiftCol n c i).map fun b => a - b

/-- Embedding of `Series.fillna(0)`. -/
def fillna0 (c : ℕ → Option ℚ) : ℕ → Option ℚ := fun i =>
  some ((c i).getD 0)

/-- Pointwise combination of two columns by a binary operation; missing
where either operand is (pandas elementwise arithmetic). -/
def combine2 (op : ℚ → ℚ → ℚ) (c₁ c₂ : ℕ → Option ℚ) : ℕ → Option ℚ := fun i =>
  (c₁ i).bind fun a => (c₂ i).map fun b => op a b

/-! ## Feature engineering (`create_time_series_features`) -/

/-- The `forecast_features` list of the source: the five environmental
signals, paired with their `Reading` accessors. -/
def forecast_features : List (String × (Reading → ℚ)) :=
  [("temperature", Reading.temperature), ("humidity", Reading.humidity),
   ("gas", Reading.gas), ("light", Reading.light), ("sound", Reading.sound)]

/-- The `complementing_features` list of the source. -/
def complementing_features : List (String × (Reading → ℚ)) :=
  [("occupancy", Reading.occupancy), ("high_engagement", Reading.high_engagement),
   ("low_engagement", Reading.low_engagement)]

/-- Per-environmental-feature engineered columns, in the order the
source inserts them into `feature_dict`: for each window in
`[5, 10, 15, 20]` the rolling mean/std/min/max (std 0-filled), then the
lags `[1, 2, 3, 5, 10]`, then the two trend (diff) columns. -/
def envFeatureCols (name : String) (c : ℕ → Option ℚ) : List (String × (ℕ → Option ℚ)) :=
  (([5, 10, 15, 20] : List ℕ).flatMap fun w =>
    [(name ++ "_roll_mean_" ++ toString w, rollMean 1 w c),
     (name ++ "_roll_std_" ++ toString w, fillna0 (rollStd 1 w c)),
     (name ++ "_roll_min_" ++ toString w, rollMin 1 w c),
     (name ++ "_roll_max_" ++ toString w, rollMax 1 w c)])
  ++ (([1, 2, 3, 5, 10] : List ℕ).map fun lag =>
       (name ++ "_lag_" ++ toString lag, shiftCol lag c))
  ++ [(name ++ "_trend_5", diffCol 5 c), (name ++ "_trend_10", diffCol 10 c)]

/-- Per-complementing-feature engineered columns: rolling mean/std for
windows `[5, 10, 15]`, then lags `[1, 2, 5]`. -/
def compFeatureCols (name : String) (c : ℕ → Option ℚ) : List (String × (ℕ → Option ℚ)) :=
  (([5, 10, 15] : List ℕ).flatMap fun w =>
    [(name ++ "_roll_mean_" ++ toString w, rollMean 1 w c),
     (name ++ "_roll_std_" ++ toString w, fillna0 (rollStd 1 w c))])
  ++ (([1, 2, 5] : List ℕ).map fun lag =>
       (name ++ "_lag_" ++ toString lag, shiftCol lag c))

/-- Columns of the raw input table `df`, in `required_cols` order. -/
def originalCols (df : List Reading) : List (String × (ℕ → Option ℚ)) :=
  [("temperature", colOf df Reading.temperature),
   ("humidity", colOf df Reading.humidity),
   ("gas", colOf df Reading.gas),
   ("light", colOf df Reading.light),
   ("sound", colOf df Reading.sound),
   ("occupancy", colOf df Reading.occupancy),
   ("high_engagement", colOf df Reading.high_engagement),
   ("low_engagement", colOf df Reading.low_engagement),
   ("hour", colOf df Reading.hour),
   ("minute", colOf df Reading.minute)]

/-- Columns of `create_time_series_features(df, forecast_features,
complementing_features)` before the `dropna()`: the original columns
(the `pd.concat([df, …])` keeps them first), then the `feature_dict`
columns, then the two interaction columns appended at the end.  Default
windows `[5, 10, 15, 20]` as in the source. -/
def create_time_series_features (df : List Reading) : List (String × (ℕ → Option ℚ)) :=
  originalCols df
  ++ (forecast_features.flatMap fun nf => envFeatureCols nf.1 (colOf df nf.2))
  ++ (complementing_features.flatMap fun nf => compFeatureCols nf.1 (colOf df nf.2))
  ++ [("engagement_ratio",
        combine2 (fun hi lo => hi / (lo + 1))
          (colOf df Reading.high_engagement) (colOf df Reading.low_engagement)),
      ("occupancy_engagement",
        combine2 (fun oc hi => oc * hi)
          (colOf df Reading.occupancy) (colOf df Reading.high_engagement))]

/-- Row-completeness check used by `dropna()`: row `i` survives exactly
when no column is missing there. -/
def rowCompleteB (cols : List (String × (ℕ → Option ℚ))) (i : ℕ) : Bool :=
  cols.all fun nc => (nc.2 i).isSome

/-- Indices of the rows kept by the `dropna()` at the end of
`create_time_series_features`, in order. -/
def dropnaRows (df : List Reading) : List ℕ :=
  (List.range df.length).filter (rowCompleteB (create_time_series_features df))

/-- Number of rows of the engineered table returned by
`create_time_series_features` (after the `dropna()`). -/
def outputCount (df : List Reading) : ℕ :=
  (dropnaRows df).length

/-! ## Forecast pipeline (`get_forecast_prediction`, app.py) -/

/-- Abstract pre-fit ML artifacts of app.py: the stored feature-column
name list, the fitted scaler, the Gradient-Boosting multi-output
regressor, and the Random-Forest classifier (its declared class list
and its per-class probability vector for a given input row).  Their
fitted parameters are external artifacts, so they are parameters of the
embedding. -/
structure MLEnv where
  feature_columns : List String
  gb_scaler : List ℚ → List ℚ
  gb_model : List ℚ → List ℚ
  rf_classes : List ℕ
  rf_proba : List ℚ → List ℚ

/-- Index of the first occurrence of the largest element (what
`np.argmax` returns on a probability vector); 0 on an empty list. -/
def argmaxIdx (l : List ℚ) : ℕ :=
  match l.max? with
  | none => 0
  | some m => l.indexOf m

/-- Modelled from the spec: `rf_model.predict` of the scikit-learn
classifier (the library is outside this repository) returns the element
of `classes_` at the argmax of the predicted probability vector; §4.4
of the spec likewise requires the predicted level to come from the
model's declared class list. -/
def rf_predict (classes : List ℕ) (proba : List ℚ) : ℕ :=
  classes.getD (argmaxIdx proba) 0

/-- Truncation toward zero, the behaviour of Python `int()` on a float. -/
def pyInt (x : ℚ) : ℤ :=
  if 0 ≤ x then ⌊x⌋ else ⌈x⌉

/-- Last `n` elements of a list in order (what
`iot_sensor.get_recent_data(limit=n)` returns for a buffer). -/
def takeLast (n : ℕ) (l : List α) : List α :=
  l.drop (l.length - n)

/-- The classifier input row built by `get_forecast_prediction`: current
five environmental values, the three occupancy/engagement values, the
five predicted values, then hour and minute — in source order. -/
def rf_input_row (cur : Reading) (future : List ℚ) : List ℚ :=
  [cur.temperature, cur.humidity, cur.gas, cur.light, cur.sound,
   cur.occupancy, cur.high_engagement, cur.low_engagement,
   future.getD 0 0, future.getD 1 0, future.getD 2 0, future.getD 3 0,
   future.getD 4 0, cur.hour, cur.minute]

/-- Value of the named engineered column at row `i`
(`df_engineered[name]`); 0 if the name or value is absent, which the
pipeline only relies on after its explicit column-presence check. -/
def colValueAt (cols : List (String × (ℕ → Option ℚ))) (name : String) (i : ℕ) : ℚ :=
  ((cols.lookup name).bind fun c => c i).getD 0

/-- Recommendation list of `get_forecast_prediction` (app.py lines
1632–1657), as (severity tag, message) pairs in source order.  Note the
single-tier CO₂ rule (`> 800`) and the warning-severity low-humidity
branch of this call site. -/
def forecast_recommendations (future : List ℚ) (cur : Reading)
    (comfort_prediction : ℕ) : List (String × String) :=
  let recs :=
    (if 24 < future.getD 0 0 then
        [("warning", "Temperature rising - Consider cooling")]
     else if future.getD 0 0 < 22 then
        [("warning", "Temperature dropping - Reduce cooling")]
     else [])
    ++ (if 800 < future.getD 2 0 then
        [("alert", "CO₂ levels high - Ventilation needed")] else [])
    ++ (if future.getD 1 0 < 30 then
        [("warning", "Low humidity - Consider humidifier")]
       else if 50 < future.getD 1 0 then
        [("warning", "High humidity - Ventilation needed")]
       else [])
    ++ (if future.getD 3 0 < 150 then
        [("info", "Low light - Increase lighting")]
       else if 250 < future.getD 3 0 then
        [("info", "Bright lighting - Consider dimming")]
       else [])
    ++ (if cur.high_engagement < cur.low_engagement then
        [("warning", "Low student engagement detected")] else [])
    ++ (if comfort_prediction ≤ 1 then
        [("alert", "ALERT: Uncomfortable conditions predicted")] else [])
  if recs = [] then [("success", "All conditions optimal")] else recs

/-- Payload of a successful forecast response (`success: True` branch of
`get_forecast_prediction`); gas and sound go through Python `int()`. -/
structure ForecastOk where
  current : Reading
  predicted_temperature : ℚ
  predicted_humidity : ℚ
  predicted_gas : ℤ
  predicted_light : ℚ
  predicted_sound : ℤ
  delta_temperature : ℚ
  delta_humidity : ℚ
  delta_gas : ℤ
  delta_light : ℚ
  delta_sound : ℤ
  comfort_level : ℕ
  confidence : ℚ
  probabilities : List (String × ℚ)
  recommendations : List (String × String)
  data_points_used : ℕ
deriving DecidableEq, Repr

/-- Result type of `get_forecast_prediction`, one constructor per
early-return branch of the source (each a distinct `success: False`
JSON response there) plus the success payload. -/
inductive ForecastResult where
  | insufficientData (data_points : ℕ)
  | featureEngineeringFailed (raw_data_points : ℕ)
  | featureMismatch (missing : List String)
  | ok (r : ForecastOk)
deriving DecidableEq, Repr

/-- Embedding of the `get_forecast_prediction` endpoint body (app.py
lines 1540–1700), after the model/IoT availability guards: fetch the
last 30 readings, bail out below 20 of them, engineer features, bail
out on an empty engineered table, check the stored feature-column names
against the engineered columns and bail out on any missing one, and
only then scale, predict, classify and build recommendations.  The
`hour`/`minute` realignment of the source is the identity here because
the surviving rows are exactly the trailing rows of a complete input
table.  Formatted message strings of the JSON response are kept; float
rendering (`:.1f`) is elided. -/
def get_forecast_prediction (env : MLEnv) (buffer : List Reading) : ForecastResult :=
  let recent_data := takeLast 30 buffer
  if recent_data.length < 20 then .insufficientData recent_data.length
  else
    let df := recent_data
    let cols := create_time_series_features df
    let rows := dropnaRows df
    if rows.length = 0 then .featureEngineeringFailed df.length
    else
      let missing_features := env.feature_columns.filter
        (fun c => !((cols.map Prod.fst).contains c))
      if missing_features = [] then
        let lastIdx := rows.getLastD 0
        let X_current := env.feature_columns.map fun name => colValueAt cols name lastIdx
        let X_scaled := env.gb_scaler X_current
        let future_values := env.gb_model X_scaled
        let current_row := df.getLastD default
        let proba := env.rf_proba (rf_input_row current_row future_values)
        let comfort_prediction := rf_predict env.rf_classes proba
        let pred_idx := env.rf_classes.indexOf comfort_prediction
        let confidence := proba.getD pred_idx 0 * 100
        .ok {
          current := current_row
          predicted_temperature := future_values.getD 0 0
          predicted_humidity := future_values.getD 1 0
          predicted_gas := pyInt (future_values.getD 2 0)
          predicted_light := future_values.getD 3 0
          predicted_sound := pyInt (future_values.getD 4 0)
          delta_temperature := future_values.getD 0 0 - current_row.temperature
          delta_humidity := future_values.getD 1 0 - current_row.humidity
          delta_gas := pyInt (future_values.getD 2 0 - current_row.gas)
          delta_light := future_values.getD 3 0 - current_row.light
          delta_sound := pyInt (future_values.getD 4 0 - current_row.sound)
          comfort_level := comfort_prediction
          confidence := confidence
          probabilities := (env.rf_classes.zip proba).map
            (fun cp => (comfort_labels_map cp.1, cp.2 * 100))
          recommendations :=
            forecast_recommendations future_values current_row comfort_prediction
          data_points_used := recent_data.length }
      else .featureMismatch missing_features

/-! ## Alert generation (`check_alerts`, app.py lines 1814–1905)

The endpoint plumbing of `check_alerts` (data fetch, feature
engineering, forecast) mirrors `get_forecast_prediction`; embedded here
is its alert-rule table, a pure function of the current row, the
forecast and the predicted comfort level.  Formatted `message` strings
are elided (float rendering); `id`, `type`, `priority` and `title` are
kept. -/

/-- One entry of the `alerts` list of `check_alerts`. -/
structure Alert where
  id : String
  type : String
  priority : String
  title : String
deriving DecidableEq, Repr

/-- Comfort-level alert block of `check_alerts`. -/
def comfort_alerts (comfort_prediction : ℕ) : List Alert :=
  if comfort_prediction = 0 then
    [⟨"comfort_critical", "error", "high", "Critical Environment Conditions"⟩]
  else if comfort_prediction = 1 then
    [⟨"comfort_poor", "warning", "medium", "Poor Environment Conditions"⟩]
  else []

/-- Temperature alert block of `check_alerts`. -/
def temp_alerts (t : ℚ) : List Alert :=
  if 26 < t then [⟨"temp_high", "warning", "medium", "High Temperature Alert"⟩]
  else if t < 20 then [⟨"temp_low", "warning", "low", "Low Temperature Alert"⟩]
  else []

/-- CO₂ alert block of `check_alerts`: strictly two-tiered. -/
def co2_alerts (g : ℚ) : List Alert :=
  if 1000 < g then [⟨"co2_critical", "error", "high", "High CO₂ Levels"⟩]
  else if 800 < g then [⟨"co2_warning", "warning", "medium", "Rising CO₂ Levels"⟩]
  else []

/-- Humidity alert block of `check_alerts`: info below 30, warning
strictly above 60. -/
def humidity_alerts (h : ℚ) : List Alert :=
  if h < 30 then [⟨"humidity_low", "info", "low", "Low Humidity"⟩]
  else if 60 < h then [⟨"humidity_high", "warning", "medium", "High Humidity"⟩]
  else []

/-- Light alert block of `check_alerts`. -/
def light_alerts (l : ℚ) : List Alert :=
  if l < 100 then [⟨"light_low", "info", "low", "Low Lighting"⟩] else []

/-- Engagement alert block of `check_alerts`. -/
def engagement_alerts (cur : Reading) : List Alert :=
  if cur.high_engagement < cur.low_engagement ∧ 0 < cur.occupancy then
    [⟨"engagement_low", "warning", "medium", "Low Student Engagement"⟩]
  else []

/-- Alert list assembled by `check_alerts` from the predicted comfort
level, the five forecast values and the current row, in source append
order. -/
def check_alerts_rules (future : List ℚ) (cur : Reading)
    (comfort_prediction : ℕ) : List Alert :=
  comfort_alerts comfort_prediction
  ++ temp_alerts (future.getD 0 0)
  ++ co2_alerts (future.getD 2 0)
  ++ humidity_alerts (future.getD 1 0)
  ++ light_alerts (future.getD 3 0)
  ++ engagement_alerts cur

/-! ## Concrete probe data

Fixed inputs used to evaluate the embedding at concrete points. -/

/-- A benign in-range snapshot (temperature 23 °C, humidity 40 %, gas
600 ppm, light 200 lux, sound 45 dBA, 20 occupants mostly engaged). -/
def probeReading : Reading :=
  { temperature := 23, humidity := 40, gas := 600, light := 200, sound := 45,
    occupancy := 20, high_engagement := 15, low_engagement := 3,
    hour := 10, minute := 30 }

/-- A 20-reading buffer of identical benign snapshots. -/
def probeBuffer : List Reading := List.replicate 20 probeReading

/-- Artifact set whose stored feature-column list names a column the
feature engineer never produces. -/
def envProbeMismatch : MLEnv :=
  { feature_columns := ["bogus"]
    gb_scaler := id
    gb_model := fun _ => [25, -5, 850.5, 200, 45.7]
    rf_classes := [0, 1, 2, 3]
    rf_proba := fun _ => [1/4, 1/4, 1/4, 1/4] }

/-- Artifact set that reaches the success branch: an empty stored
column list (so the presence check passes), an identity scaler, a
constant regressor predicting temperature 25 °C, humidity −5 %, gas
850.5 ppm, light 200 lux, sound 45.7, and a classifier with the full
class set and uniform probabilities. -/
def envProbeOk : MLEnv :=
  { feature_columns := []
    gb_scaler := id
    gb_model := fun _ => [25, -5, 850.5, 200, 45.7]
    rf_classes := [0, 1, 2, 3]
    rf_proba := fun _ => [1/4, 1/4, 1/4, 1/4] }

/-- Success payload of a forecast result, if any. -/
def ForecastResult.okPayload? : ForecastResult → Option ForecastOk
  | .ok r => some r
  | _ => none

/-- The raw output vector of the regression model inside
`get_forecast_prediction` (the `future_values` of the source): the
latest surviving feature row, restricted to the stored column names,
scaled, and passed through the model. -/
def pipelineFuture (env : MLEnv) (buffer : List Reading) : List ℚ :=
  env.gb_model (env.gb_scaler (env.feature_columns.map fun name =>
    colValueAt (create_time_series_features (takeLast 30 buffer)) name
      ((dropnaRows (takeLast 30 buffer)).getLastD 0)))

/-! ## Helper lemmas: window membership and column definedness -/

theorem mem_windowIdx {w i j : ℕ} : j ∈ windowIdx w i ↔ i + 1 - w ≤ j ∧ j < i + 1 := by
  simp [windowIdx, List.mem_filter, List.mem_range, and_comm]

theorem self_mem_windowIdx {w i : ℕ} (hw : 1 ≤ w) : i ∈ windowIdx w i :=
  mem_windowIdx.mpr ⟨by omega, by omega⟩

theorem colOf_eq_some {df : List Reading} {f : Reading → ℚ} {i : ℕ}
    (hi : i < df.length) (r₀ : Reading) :
    colOf df f i = some (f (df.getD i r₀)) := by
  simp [colOf, List.getElem?_eq_getElem hi, List.getD_eq_getElem df r₀ hi]

theorem isSome_colOf {df : List Reading} {f : Reading → ℚ} {i : ℕ}
    (hi : i < df.length) : (colOf df f i).isSome := by
  rw [colOf_eq_some hi default]; rfl

theorem filterMap_colOf_eq_map {df : List Reading} {f : Reading → ℚ} (r₀ : Reading) :
    ∀ idx : List ℕ, (∀ j ∈ idx, j < df.length) →
      idx.filterMap (colOf df f) = idx.map (fun j => f (df.getD j r₀)) := by
  intro idx h
  induction idx with
  | nil => simp
  | cons a t ih =>
    rw [List.filterMap_cons, List.map_cons, colOf_eq_some (h a (by simp)) r₀,
      ih (fun j hj => h j (by simp [hj]))]

theorem windowVals_colOf_eq_map {df : List Reading} {f : Reading → ℚ} {w i : ℕ}
    (hi : i < df.length) (r₀ : Reading) :
    windowVals (colOf df f) w i = (windowIdx w i).map (fun j => f (df.getD j r₀)) := by
  exact filterMap_colOf_eq_map r₀ _ (fun j hj => by
    have := mem_windowIdx.mp hj; omega)

theorem length_windowVals_pos {df : List Reading} {f : Reading → ℚ} {w i : ℕ}
    (hw : 1 ≤ w) (hi : i < df.length) :
    0 < (windowVals (colOf df f) w i).length := by
  rw [windowVals_colOf_eq_map hi default, List.length_map]
  exact List.length_pos.mpr (List.ne_nil_of_mem (self_mem_windowIdx hw))

theorem mem_windowVals_self {df : List Reading} {f : Reading → ℚ} {w i : ℕ}
    (hw : 1 ≤ w) (hi : i < df.length) :
    f (df.getD i default) ∈ windowVals (colOf df f) w i := by
  rw [windowVals_colOf_eq_map hi default]
  exact List.mem_map.mpr ⟨i, self_mem_windowIdx hw, rfl⟩

theorem isSome_rollMean {df : List Reading} {f : Reading → ℚ} {w i : ℕ}
    (hw : 1 ≤ w) (hi : i < df.length) :
    (rollMean 1 w (colOf df f) i).isSome := by
  have h := length_windowVals_pos (f := f) hw hi
  simp only [rollMean]
  rw [if_neg (by omega)]
  rfl

theorem isSome_rollMin {df : List Reading} {f : Reading → ℚ} {w i : ℕ}
    (hw : 1 ≤ w) (hi : i < df.length) :
    (rollMin 1 w (colOf df f) i).isSome := by
  have h := length_windowVals_pos (f := f) hw hi
  simp only [rollMin]
  rw [if_neg (by omega)]
  exact List.isSome_min?_of_mem (mem_windowVals_self hw hi)

theorem isSome_rollMax {df : List Reading} {f : Reading → ℚ} {w i : ℕ}
    (hw : 1 ≤ w) (hi : i < df.length) :
    (rollMax 1 w (colOf df f) i).isSome := by
  have h := length_windowVals_pos (f := f) hw hi
  simp only [rollMax]
  rw [if_neg (by omega)]
  exact List.isSome_max?_of_mem (mem_windowVals_self hw hi)

theorem isSome_fillna0 (c : ℕ → Option ℚ) (i : ℕ) : (fillna0 c i).isSome := rfl

theorem isSome_shiftCol_colOf {df : List Reading} {f : Reading → ℚ} {n i : ℕ}
    (hn : n ≤ i) (hi : i < df.length) :
    (shiftCol n (colOf df f) i).isSome := by
  simp only [shiftCol]
  rw [if_neg (by omega)]
  exact isSome_colOf (by omega)

theorem shiftCol_eq_none {n i : ℕ} (c : ℕ → Option ℚ) (hn : i < n) :
    shiftCol n c i = none := by
  simp [shiftCol, hn]

theorem isSome_diffCol_colOf {df : List Reading} {f : Reading → ℚ} {n i : ℕ}
    (hn : n ≤ i) (hi : i < df.length) :
    (diffCol n (colOf df f) i).isSome := by
  simp only [diffCol, shiftCol]
  rw [colOf_eq_some hi default, if_neg (by omega), colOf_eq_some (by omega : i - n < df.length) default]
  rfl

theorem isSome_combine2_colOf {df : List Reading} {f g : Reading → ℚ}
    {op : ℚ → ℚ → ℚ} {i : ℕ} (hi : i < df.length) :
    (combine2 op (colOf df f) (colOf df g) i).isSome := by
  simp only [combine2]
  rw [colOf_eq_some hi default, colOf_eq_some hi default]
  rfl

/-! ## Which rows does the `dropna()` keep?

With `min_periods=1` no rolling column is ever missing, the std columns
are 0-filled, and the diff/lag columns are missing exactly on the first
`n` rows for offset `n`; the largest offset used is 10 (`lag_10` and
`trend_10`).  Hence row `i` of a complete input table survives the
`dropna()` exactly when `10 ≤ i`. -/

theorem rowCompleteB_eq_false {df : List Reading} {i : ℕ} (hi : i < 10) :
    rowCompleteB (create_time_series_features df) i = false := by
  apply List.all_eq_false.mpr
  refine ⟨("temperature" ++ "_lag_" ++ toString (10 : ℕ),
    shiftCol 10 (colOf df Reading.temperature)), ?_, ?_⟩
  · simp [create_time_series_features, forecast_features, envFeatureCols]
  · simp [shiftCol_eq_none _ hi]

theorem rowCompleteB_eq_true {df : List Reading} {i : ℕ}
    (h10 : 10 ≤ i) (hi : i < df.length) :
    rowCompleteB (create_time_series_features df) i = true := by
  apply List.all_eq_true.mpr
  intro nc hnc
  unfold create_time_series_features at hnc
  rcases List.mem_append.mp hnc with hnc1 | hint
  · rcases List.mem_append.mp hnc1 with hnc2 | hcomp
    · rcases List.mem_append.mp hnc2 with horig | henv
      · -- original input columns
        simp only [originalCols, List.mem_cons, List.not_mem_nil, or_false] at horig
        rcases horig with rfl|rfl|rfl|rfl|rfl|rfl|rfl|rfl|rfl|rfl <;>
          exact isSome_colOf hi
      · -- environmental engineered columns
        obtain ⟨nf, _, hmem⟩ := List.mem_flatMap.mp henv
        unfold envFeatureCols at hmem
        rcases List.mem_append.mp hmem with hmem2 | htrend
        · rcases List.mem_append.mp hmem2 with hroll | hlag
          · obtain ⟨w, hw, hmem4⟩ := List.mem_flatMap.mp hroll
            have hw1 : 1 ≤ w := by
              simp only [List.mem_cons, List.not_mem_nil, or_false] at hw
              rcases hw with rfl|rfl|rfl|rfl <;> norm_num
            simp only [List.mem_cons, List.not_mem_nil, or_false] at hmem4
            rcases hmem4 with rfl|rfl|rfl|rfl
            · exact isSome_rollMean hw1 hi
            · exact isSome_fillna0 _ i
            · exact isSome_rollMin hw1 hi
            · exact isSome_rollMax hw1 hi
          · obtain ⟨lag, hlag', rfl⟩ := List.mem_map.mp hlag
            have hle : lag ≤ i := by
              simp only [List.mem_cons, List.not_mem_nil, or_false] at hlag'
              rcases hlag' with rfl|rfl|rfl|rfl|rfl <;> omega
            exact isSome_shiftCol_colOf hle hi
        · simp only [List.mem_cons, List.not_mem_nil, or_false] at htrend
          rcases htrend with rfl|rfl
          · exact isSome_diffCol_colOf (by omega) hi
          · exact isSome_diffCol_colOf (by omega) hi
    · -- complementing engineered columns
      obtain ⟨nf, _, hmem⟩ := List.mem_flatMap.mp hcomp
      unfold compFeatureCols at hmem
      rcases List.mem_append.mp hmem with hroll | hlag
      · obtain ⟨w, hw, hmem4⟩ := List.mem_flatMap.mp hroll
        have hw1 : 1 ≤ w := by
          simp only [List.mem_cons, List.not_mem_nil, or_false] at hw
          rcases hw with rfl|rfl|rfl <;> norm_num
        simp only [List.mem_cons, List.not_mem_nil, or_false] at hmem4
        rcases hmem4 with rfl|rfl
        · exact isSome_rollMean hw1 hi
        · exact isSome_fillna0 _ i
      · obtain ⟨lag, hlag', rfl⟩ := List.mem_map.mp hlag
        have hle : lag ≤ i := by
          simp only [List.mem_cons, List.not_mem_nil, or_false] at hlag'
          rcases hlag' with rfl|rfl|rfl <;> omega
        exact isSome_shiftCol_colOf hle hi
  · -- interaction columns
    simp only [List.mem_cons, List.not_mem_nil, or_false] at hint
    rcases hint with rfl|rfl
    · exact isSome_combine2_colOf hi
    · exact isSome_combine2_colOf hi

theorem dropnaRows_eq_filter (df : List Reading) :
    dropnaRows df = (List.range df.length).filter (fun i => decide (10 ≤ i)) := by
  unfold dropnaRows
  apply List.filter_congr
  intro i hi
  have hi' := List.mem_range.mp hi
  by_cases h : 10 ≤ i
  · rw [rowCompleteB_eq_true h hi']
    simp [h]
  · rw [rowCompleteB_eq_false (by omega)]
    simp [h]

theorem length_filter_range_ge (n : ℕ) :
    ((List.range n).filter (fun i => decide (10 ≤ i))).length = n - 10 := by
  induction n with
  | zero => rfl
  | succ n ih =>
    rw [List.range_succ, List.filter_append, List.length_append, ih]
    by_cases h : 10 ≤ n
    · simp only [List.filter_cons, List.filter_nil]
      rw [if_pos (by simpa using h)]
      simp
      omega
    · simp only [List.filter_cons, List.filter_nil]
      rw [if_neg (by simpa using h)]
      simp
      omega

/-! ## Claim C1 — feature-engineer minimum window -/

/-- C1 (counterexample): the claim says feeding exactly 20 input rows
to the feature engineer yields zero output rows; on a concrete 20-row
input table the engineered table has 10 rows, not zero. -/
theorem c1_counterexample :
    outputCount (List.replicate 20 probeReading) = 10 ∧
    outputCount (List.replicate 20 probeReading) ≠ 0 := by
  decide

/-- C1 (amended): for the default configuration the only
missing-value-producing transforms are the lags {1,2,3,5,10} and the
trend differences {5,10} — the rolling windows use `min_periods=1` and
never produce missing values — so `create_time_series_features` keeps
exactly the rows from index 10 on: an n-row input yields n − 10 output
rows.  In particular 10 rows (not 20) yield zero output rows, 11 rows
(not 21) yield one, and 20 rows yield 10. -/
theorem c1_output_rows (df : List Reading) : outputCount df = df.length - 10 := by
  rw [outputCount, dropnaRows_eq_filter, length_filter_range_ge]

/-! ## Claim C2 — rule-based scorer boundary exactness -/

/-- C2: the rule-based comfort scorer hits its boundaries exactly —
(22,30,799,150,35) has every sensor in its perfect band and scores
level 3; (21,25,999,100,70) has every sensor contribute exactly 0.5,
total 2.5, level 1; (18,20,2000,50,100) has every sensor outside its
tolerable band and scores level 0. -/
theorem c2_scorer_boundaries :
    classify_comfort 22 30 799 150 35 = 3 ∧
    classify_comfort 21 25 999 100 70 = 1 ∧
    classify_comfort 18 20 2000 50 100 = 0 := by
  refine ⟨?_, ?_, ?_⟩ <;> norm_num [classify_comfort]

/-! ## Claim C10 — characterisation of the Optimal level -/

set_option maxHeartbeats 1000000 in
/-- C10: the rule-based scorer returns 3 (Optimal) exactly when either
all five checks are in their perfect bands, or exactly four are perfect
and the remaining one is in its tolerable band; consequently a score of
3 forces at least four perfect checks. -/
theorem c10_optimal_iff (t h g l s : ℚ) :
    (classify_comfort t h g l s = 3 ↔
      ((22 ≤ t ∧ t ≤ 24) ∧ (30 ≤ h ∧ h ≤ 50) ∧ g < 800 ∧ (150 ≤ l ∧ l ≤ 250) ∧ (35 ≤ s ∧ s ≤ 60))
      ∨ (¬(22 ≤ t ∧ t ≤ 24) ∧ (21 ≤ t ∧ t ≤ 25) ∧ (30 ≤ h ∧ h ≤ 50) ∧ g < 800 ∧ (150 ≤ l ∧ l ≤ 250) ∧ (35 ≤ s ∧ s ≤ 60))
      ∨ ((22 ≤ t ∧ t ≤ 24) ∧ ¬(30 ≤ h ∧ h ≤ 50) ∧ (25 ≤ h ∧ h ≤ 55) ∧ g < 800 ∧ (150 ≤ l ∧ l ≤ 250) ∧ (35 ≤ s ∧ s ≤ 60))
      ∨ ((22 ≤ t ∧ t ≤ 24) ∧ (30 ≤ h ∧ h ≤ 50) ∧ ¬(g < 800) ∧ g < 1000 ∧ (150 ≤ l ∧ l ≤ 250) ∧ (35 ≤ s ∧ s ≤ 60))
      ∨ ((22 ≤ t ∧ t ≤ 24) ∧ (30 ≤ h ∧ h ≤ 50) ∧ g < 800 ∧ ¬(150 ≤ l ∧ l ≤ 250) ∧ (100 ≤ l ∧ l ≤ 300) ∧ (35 ≤ s ∧ s ≤ 60))
      ∨ ((22 ≤ t ∧ t ≤ 24) ∧ (30 ≤ h ∧ h ≤ 50) ∧ g < 800 ∧ (150 ≤ l ∧ l ≤ 250) ∧ ¬(35 ≤ s ∧ s ≤ 60) ∧ s ≤ 70))
    ∧ (classify_comfort t h g l s = 3 →
        4 ≤ (if 22 ≤ t ∧ t ≤ 24 then 1 else 0) + (if 30 ≤ h ∧ h ≤ 50 then 1 else 0)
          + (if g < 800 then 1 else 0) + (if 150 ≤ l ∧ l ≤ 250 then 1 else 0)
          + (if 35 ≤ s ∧ s ≤ 60 then (1:ℕ) else 0)) := by
  have tri : ∀ P T : Prop, (P → T) → (P ∧ T) ∨ (¬P ∧ T) ∨ (¬P ∧ ¬T) := by tauto
  unfold classify_comfort
  rcases tri (22 ≤ t ∧ t ≤ 24) (21 ≤ t ∧ t ≤ 25)
      (fun hp => ⟨by linarith [hp.1], by linarith [hp.2]⟩) with ⟨h1, h1b⟩ | ⟨h1, h1b⟩ | ⟨h1, h1b⟩ <;>
    rcases tri (30 ≤ h ∧ h ≤ 50) (25 ≤ h ∧ h ≤ 55)
      (fun hp => ⟨by linarith [hp.1], by linarith [hp.2]⟩) with ⟨h2, h2b⟩ | ⟨h2, h2b⟩ | ⟨h2, h2b⟩ <;>
    rcases tri (g < 800) (g < 1000) (fun hp => by linarith) with ⟨h3, h3b⟩ | ⟨h3, h3b⟩ | ⟨h3, h3b⟩ <;>
    rcases tri (150 ≤ l ∧ l ≤ 250) (100 ≤ l ∧ l ≤ 300)
      (fun hp => ⟨by linarith [hp.1], by linarith [hp.2]⟩) with ⟨h4, h4b⟩ | ⟨h4, h4b⟩ | ⟨h4, h4b⟩ <;>
    rcases tri (35 ≤ s ∧ s ≤ 60) (s ≤ 70) (fun hp => by linarith [hp.2]) with ⟨h5, h5b⟩ | ⟨h5, h5b⟩ | ⟨h5, h5b⟩ <;>
    norm_num [h1, h1b, h2, h2b, h3, h3b, h4, h4b, h5, h5b]

/-- C10 (witness): the all-perfect probe point (22,30,799,150,35)
classifies Optimal, and instantiating the theorem there certifies at
least four perfect checks. -/
theorem c10_witness :
    classify_comfort 22 30 799 150 35 = 3 ∧
    4 ≤ (if (22:ℚ) ≤ 22 ∧ (22:ℚ) ≤ 24 then 1 else 0)
      + (if (30:ℚ) ≤ 30 ∧ (30:ℚ) ≤ 50 then 1 else 0)
      + (if (799:ℚ) < 800 then 1 else 0)
      + (if (150:ℚ) ≤ 150 ∧ (150:ℚ) ≤ 250 then 1 else 0)
      + (if (35:ℚ) ≤ 35 ∧ (35:ℚ) ≤ 60 then (1:ℕ) else 0) :=
  ⟨by norm_num [classify_comfort],
   (c10_optimal_iff 22 30 799 150 35).2 (by norm_num [classify_comfort])⟩

/-! ## Claim C3 — CO₂ rule tiers -/

/-- C3 (counterexample): the claim says every forecast path emits an
urgent-ventilation alert for gas > 1000 and only a milder
consider-ventilation warning otherwise above 800; but the
`get_forecast_prediction` recommendation path emits the identical
single alert-severity item for gas 900 and for gas 1200 — it has no
second tier and no milder warning above 800. -/
theorem c3_counterexample :
    forecast_recommendations [23, 40, 900, 200, 50] probeReading 3
      = forecast_recommendations [23, 40, 1200, 200, 50] probeReading 3 ∧
    ("alert", "CO₂ levels high - Ventilation needed")
      ∈ forecast_recommendations [23, 40, 900, 200, 50] probeReading 3 := by
  decide

set_option maxHeartbeats 1000000 in
/-- C3 (amended): the two-tier CO₂ rule lives in the alert-checking
path only: `check_alerts` emits the error-severity co2_critical alert
exactly when predicted gas exceeds 1000 and the warning-severity
co2_warning alert exactly when it lies in (800, 1000]; the
forecast-recommendation path instead has a single tier, emitting its
alert-severity ventilation message exactly when predicted gas exceeds
800, identical for all such values. -/
theorem c3_co2_two_tier (t hq g l s : ℚ) (cur : Reading) (cp : ℕ) :
    (Alert.mk "co2_critical" "error" "high" "High CO₂ Levels"
        ∈ check_alerts_rules [t, hq, g, l, s] cur cp ↔ 1000 < g)
    ∧ (Alert.mk "co2_warning" "warning" "medium" "Rising CO₂ Levels"
        ∈ check_alerts_rules [t, hq, g, l, s] cur cp ↔ (800 < g ∧ g ≤ 1000))
    ∧ (("alert", "CO₂ levels high - Ventilation needed")
        ∈ forecast_recommendations [t, hq, g, l, s] cur cp ↔ 800 < g) := by
  refine ⟨?_, ?_, ?_⟩
  · simp only [check_alerts_rules, comfort_alerts, temp_alerts, co2_alerts, humidity_alerts,
      light_alerts, engagement_alerts, List.mem_append, List.getD]
    norm_num
    split_ifs <;> simp_all
  · simp only [check_alerts_rules, comfort_alerts, temp_alerts, co2_alerts, humidity_alerts,
      light_alerts, engagement_alerts, List.mem_append, List.getD]
    norm_num
    split_ifs <;> simp_all
  · simp only [forecast_recommendations, List.getD]
    norm_num
    split_ifs <;> simp_all

/-! ## Claim C4 — high-humidity threshold split -/

/-- C4 (counterexample): the claim says a predicted humidity below 30
yields an info-severity low-humidity message; in the
forecast-recommendation path the low-humidity message for humidity 20
carries warning severity, and no info-severity item at all is emitted
there. -/
theorem c4_counterexample :
    (("warning", "Low humidity - Consider humidifier")
      ∈ forecast_recommendations [23, 20, 600, 200, 50] probeReading 3) ∧
    (forecast_recommendations [23, 20, 600, 200, 50] probeReading 3).all
      (fun r => decide (r.1 ≠ "info")) = true := by
  decide

set_option maxHeartbeats 1000000 in
/-- C4 (amended): the forecast-recommendation path emits its
high-humidity warning exactly when predicted humidity is strictly
above 50, the alert-checking path exactly when strictly above 60;
below 30 a low-humidity message is emitted instead — with warning
severity in the forecast-recommendation path but info severity in the
alert-checking path. -/
theorem c4_humidity_thresholds (t hq g l s : ℚ) (cur : Reading) (cp : ℕ) :
    (("warning", "High humidity - Ventilation needed")
        ∈ forecast_recommendations [t, hq, g, l, s] cur cp ↔ 50 < hq)
    ∧ (Alert.mk "humidity_high" "warning" "medium" "High Humidity"
        ∈ check_alerts_rules [t, hq, g, l, s] cur cp ↔ 60 < hq)
    ∧ (("warning", "Low humidity - Consider humidifier")
        ∈ forecast_recommendations [t, hq, g, l, s] cur cp ↔ hq < 30)
    ∧ (Alert.mk "humidity_low" "info" "low" "Low Humidity"
        ∈ check_alerts_rules [t, hq, g, l, s] cur cp ↔ hq < 30) := by
  refine ⟨?_, ?_, ?_, ?_⟩
  · simp only [forecast_recommendations, List.getD]
    norm_num
    split_ifs <;> simp_all <;> linarith
  · simp only [check_alerts_rules, comfort_alerts, temp_alerts, co2_alerts, humidity_alerts,
      light_alerts, engagement_alerts, List.mem_append, List.getD]
    norm_num
    split_ifs <;> simp_all <;> linarith
  · simp only [forecast_recommendations, List.getD]
    norm_num
    split_ifs <;> simp_all
  · simp only [check_alerts_rules, comfort_alerts, temp_alerts, co2_alerts, humidity_alerts,
      light_alerts, engagement_alerts, List.mem_append, List.getD]
    norm_num
    split_ifs <;> simp_all

/-! ## Claim C8 — insufficient data is a non-crashing terminal outcome -/

/-- C8: with fewer than 20 buffered readings the forecast operation
returns the insufficient-data result carrying the available count — no
feature engineering, no model call, no forecast payload (the
`insufficientData` constructor carries nothing else). -/
theorem c8_insufficient_data (env : MLEnv) (buffer : List Reading)
    (hlt : buffer.length < 20) :
    get_forecast_prediction env buffer = .insufficientData buffer.length := by
  have htake : takeLast 30 buffer = buffer := by
    unfold takeLast
    rw [Nat.sub_eq_zero_of_le (by omega), List.drop_zero]
  simp only [get_forecast_prediction, htake]
  rw [if_pos hlt]

/-- C8 (witness): a 5-reading buffer yields the insufficient-data
result reporting 5 available readings. -/
theorem c8_witness :
    (List.replicate 5 probeReading).length < 20 ∧
    get_forecast_prediction envProbeOk (List.replicate 5 probeReading)
      = .insufficientData (List.replicate 5 probeReading).length :=
  ⟨by decide, c8_insufficient_data envProbeOk (List.replicate 5 probeReading) (by decide)⟩

/-! ## Claim C7 — explicit feature-column check before prediction -/

/-- C7: whenever at least one stored feature-column name is absent from
the engineered columns, the forecast operation returns the
feature-mismatch error naming the missing columns; the error branch is
taken before the scaler or either model is applied — the statement
holds for every `env`, in particular whatever `gb_scaler`/`gb_model`
do — and no default values are substituted. -/
theorem c7_feature_mismatch (env : MLEnv) (buffer : List Reading)
    (h20 : ¬ (takeLast 30 buffer).length < 20)
    (hrows : ¬ (dropnaRows (takeLast 30 buffer)).length = 0)
    (hmiss : env.feature_columns.filter
      (fun c => !(((create_time_series_features (takeLast 30 buffer)).map Prod.fst).contains c)) ≠ []) :
    get_forecast_prediction env buffer
      = .featureMismatch (env.feature_columns.filter
          (fun c => !(((create_time_series_features (takeLast 30 buffer)).map Prod.fst).contains c))) := by
  simp only [get_forecast_prediction]
  rw [if_neg h20, if_neg hrows, if_neg hmiss]

/-- C7 (witness): with a stored column list naming a column the feature
engineer never produces ("bogus"), a 20-reading buffer yields the
feature-mismatch error listing exactly that column. -/
theorem c7_witness :
    (¬ (takeLast 30 probeBuffer).length < 20) ∧
    (¬ (dropnaRows (takeLast 30 probeBuffer)).length = 0) ∧
    (envProbeMismatch.feature_columns.filter
      (fun c => !(((create_time_series_features (takeLast 30 probeBuffer)).map Prod.fst).contains c)) ≠ []) ∧
    get_forecast_prediction envProbeMismatch probeBuffer
      = .featureMismatch (envProbeMismatch.feature_columns.filter
          (fun c => !(((create_time_series_features (takeLast 30 probeBuffer)).map Prod.fst).contains c))) :=
  ⟨by decide, by decide, by decide,
   c7_feature_mismatch envProbeMismatch probeBuffer (by decide) (by decide) (by decide)⟩

/-! ## Claim C9 — forecast values are returned unclamped -/

/-- C9 (counterexample): the claim says all five placed values equal
the model's raw outputs; with a model whose raw gas output is 850.5 the
placed gas value is the truncated integer 850 — temperature, humidity
(even the negative −5) and light are placed exactly, but gas and sound
pass through Python `int()`. -/
theorem c9_counterexample :
    ((get_forecast_prediction envProbeOk probeBuffer).okPayload?.map ForecastOk.predicted_gas)
      = some 850 ∧
    (pipelineFuture envProbeOk probeBuffer).getD 2 0 = 850.5 ∧
    ((850.5 : ℚ) ≠ 850) := by
  refine ⟨?_, rfl, by norm_num⟩
  rw [show ((get_forecast_prediction envProbeOk probeBuffer).okPayload?.map ForecastOk.predicted_gas)
      = some (pyInt (850.5 : ℚ)) from rfl]
  norm_num [pyInt, Int.floor_eq_iff]

/-- C9 (amended): on every successful forecast, temperature, humidity
and light are placed in the result exactly as the model emitted them —
no clamping or sanity-bounding, a negative humidity included — while
gas and sound are truncated toward zero by Python `int()` (a rounding,
still not a clamp); on a non-successful result there is no payload at
all. -/
theorem c9_unclamped (env : MLEnv) (buffer : List Reading) :
    ((get_forecast_prediction env buffer).okPayload?.map fun r =>
        (r.predicted_temperature, r.predicted_humidity, r.predicted_gas,
         r.predicted_light, r.predicted_sound))
      = ((get_forecast_prediction env buffer).okPayload?.map fun _ =>
        ((pipelineFuture env buffer).getD 0 0, (pipelineFuture env buffer).getD 1 0,
         pyInt ((pipelineFuture env buffer).getD 2 0), (pipelineFuture env buffer).getD 3 0,
         pyInt ((pipelineFuture env buffer).getD 4 0))) := by
  simp only [get_forecast_prediction, pipelineFuture]
  split
  · rfl
  · split
    · rfl
    · split
      · rfl
      · rfl

/-! ## Claim C5 — classifier output well-formedness -/

theorem rf_predict_mem (classes : List ℕ) (proba : List ℚ) (hne : classes ≠ [])
    (hlen : proba.length = classes.length) : rf_predict classes proba ∈ classes := by
  unfold rf_predict argmaxIdx
  cases hm : proba.max? with
  | none =>
    rw [List.max?_eq_none_iff] at hm
    subst hm
    exact absurd (List.eq_nil_of_length_eq_zero hlen.symm) hne
  | some m =>
    have hmem : m ∈ proba := List.max?_mem (fun a b => max_choice a b) hm
    have hidx : proba.indexOf m < classes.length := by
      rw [← hlen]
      exact List.indexOf_lt_length.mpr hmem
    rw [List.getD_eq_getElem classes 0 hidx]
    exact List.getElem_mem _

theorem lookup_map_zip {classes : List ℕ} {proba : List ℚ} {c : ℕ}
    (hlt4 : ∀ x ∈ classes, x < 4) (hlen : proba.length = classes.length)
    (hc : c ∈ classes) :
    ((classes.zip proba).map (fun cp => (comfort_labels_map cp.1, cp.2 * 100))).lookup
        (comfort_labels_map c)
      = some (proba.getD (classes.indexOf c) 0 * 100) := by
  induction classes generalizing proba with
  | nil => cases hc
  | cons a cs ih =>
    cases proba with
    | nil => simp at hlen
    | cons p ps =>
      simp only [List.zip_cons_cons, List.map_cons, List.lookup]
      by_cases hca : c = a
      · subst hca
        rw [beq_self_eq_true]
        simp [List.indexOf_cons_self]
      · have hlab : (comfort_labels_map c == comfort_labels_map a) = false := by
          apply beq_eq_false_iff_ne.mpr
          have h1 : c < 4 := hlt4 c hc
          have h2 : a < 4 := hlt4 a (by simp)
          interval_cases c <;> interval_cases a <;> simp_all [comfort_labels_map]
        simp only [hlab]
        have hcs : c ∈ cs := by
          rcases List.mem_cons.mp hc with rfl | h
          · exact absurd rfl hca
          · exact h
        have hlen' : ps.length = cs.length := by simpa using hlen
        rw [show List.zipWith Prod.mk cs ps = cs.zip ps from rfl]
        rw [ih (fun x hx => hlt4 x (by simp [hx])) hlen' hcs]
        rw [List.indexOf_cons_ne _ (by exact fun hh => hca hh.symm), List.getD_cons_succ]

theorem sum_prob_map (classes : List ℕ) (proba : List ℚ)
    (hlen : proba.length = classes.length) :
    (((classes.zip proba).map (fun cp => (comfort_labels_map cp.1, cp.2 * 100))).map
        Prod.snd).sum = proba.sum * 100 := by
  rw [List.map_map]
  rw [show (Prod.snd ∘ fun cp : ℕ × ℚ => (comfort_labels_map cp.1, cp.2 * 100))
      = ((fun q : ℚ => q * 100) ∘ Prod.snd) from rfl]
  rw [← List.map_map, List.map_snd_zip _ _ (le_of_eq hlen)]
  simpa using List.sum_map_mul_right proba id 100

/-- C5 (counterexample): the claim says the per-class probability map of
the returned comfort assessment sums to 1.0 within 1e-6; with a
classifier emitting the uniform vector (¼,¼,¼,¼) the returned map's
values sum to 100 — the source multiplies each probability by 100 — and
100 is not within 1e-6 of 1. -/
theorem c5_counterexample :
    ((get_forecast_prediction envProbeOk probeBuffer).okPayload?.map fun r =>
        (r.probabilities.map Prod.snd).sum) = some 100 ∧
    ¬ (|(100 : ℚ) - 1| ≤ 1 / 1000000) := by
  constructor
  · rw [show ((get_forecast_prediction envProbeOk probeBuffer).okPayload?.map fun r =>
          (r.probabilities.map Prod.snd).sum)
        = some (([("Critical", (1:ℚ)/4 * 100), ("Poor", (1:ℚ)/4 * 100),
            ("Acceptable", (1:ℚ)/4 * 100), ("Optimal", (1:ℚ)/4 * 100)].map Prod.snd).sum)
        from rfl]
    norm_num
  · norm_num

/-- C5 (amended): for every classifier whose classes are drawn from the
label set {0,1,2,3} and whose probability vector matches the class list
in length and sums to 1, any successful forecast result has a
probability map whose values sum to 100 (percentages, i.e. 100× the
classifier probabilities), a predicted level that is a member of the
declared class set, and a confidence equal to the map entry looked up
at the predicted level's label (the probability at the index of the
predicted class, not a fixed position). -/
theorem c5_probabilities (env : MLEnv) (buffer : List Reading)
    (hne : env.rf_classes ≠ [])
    (hlt4 : ∀ c ∈ env.rf_classes, c < 4)
    (hpr : ∀ x, (env.rf_proba x).length = env.rf_classes.length ∧ (env.rf_proba x).sum = 1) :
    (((get_forecast_prediction env buffer).okPayload?.map fun r =>
        (r.probabilities.map Prod.snd).sum)
      = ((get_forecast_prediction env buffer).okPayload?.map fun _ => (100:ℚ)))
    ∧ (((get_forecast_prediction env buffer).okPayload?.map fun r =>
        decide (r.comfort_level ∈ env.rf_classes))
      = ((get_forecast_prediction env buffer).okPayload?.map fun _ => true))
    ∧ (((get_forecast_prediction env buffer).okPayload?.map fun r =>
        r.probabilities.lookup (comfort_labels_map r.comfort_level))
      = ((get_forecast_prediction env buffer).okPayload?.map fun r => some r.confidence)) := by
  simp only [get_forecast_prediction]
  split
  · exact ⟨rfl, rfl, rfl⟩
  · split
    · exact ⟨rfl, rfl, rfl⟩
    · split
      · refine ⟨?_, ?_, ?_⟩ <;> dsimp only [ForecastResult.okPayload?, Option.map]
        · rw [sum_prob_map _ _ (hpr _).1, (hpr _).2, one_mul]
        · simp [rf_predict_mem _ _ hne (hpr _).1]
        · rw [lookup_map_zip hlt4 (hpr _).1 (rf_predict_mem _ _ hne (hpr _).1)]
      · exact ⟨rfl, rfl, rfl⟩

/-- C5 (witness): the amended claim instantiated at the uniform
four-class probe classifier and the 20-reading probe buffer. -/
theorem c5_witness :
    (envProbeOk.rf_classes ≠ []) ∧
    (∀ c ∈ envProbeOk.rf_classes, c < 4) ∧
    (∀ x, (envProbeOk.rf_proba x).length = envProbeOk.rf_classes.length ∧
      (envProbeOk.rf_proba x).sum = 1) ∧
    ((((get_forecast_prediction envProbeOk probeBuffer).okPayload?.map fun r =>
        (r.probabilities.map Prod.snd).sum)
      = ((get_forecast_prediction envProbeOk probeBuffer).okPayload?.map fun _ => (100:ℚ)))
    ∧ (((get_forecast_prediction envProbeOk probeBuffer).okPayload?.map fun r =>
        decide (r.comfort_level ∈ envProbeOk.rf_classes))
      = ((get_forecast_prediction envProbeOk probeBuffer).okPayload?.map fun _ => true))
    ∧ (((get_forecast_prediction envProbeOk probeBuffer).okPayload?.map fun r =>
        r.probabilities.lookup (comfort_labels_map r.comfort_level))
      = ((get_forecast_prediction envProbeOk probeBuffer).okPayload?.map fun r =>
        some r.confidence))) :=
  ⟨by decide, by decide, fun x => ⟨rfl, by norm_num [envProbeOk]⟩,
   c5_probabilities envProbeOk probeBuffer (by decide) (by decide)
     (fun x => ⟨rfl, by norm_num [envProbeOk]⟩)⟩

/-! ## Claim C6 — causal rolling statistics with min_periods = 1 -/

/-- C6: for every input table, environmental accessor, window size
w ≥ 1 and in-range row i, the rolling window consists exactly of the
positions max(0, i−w+1) … i (causal, never future rows), every one of
those positions contributes its actual value (none missing), the
rolling mean is the arithmetic mean of those values, the rolling
min/max is a member of the window attaining the least/greatest value,
the 0-filled rolling std is never missing, and when the window holds
fewer than 2 samples the 0-filled rolling std equals 0 rather than
missing. -/
theorem c6_rolling_causal (df : List Reading) (f : Reading → ℚ) (w i : ℕ)
    (hw : 1 ≤ w) (hi : i < df.length) :
    (∀ j, j ∈ windowIdx w i ↔ (i + 1 - w ≤ j ∧ j ≤ i))
    ∧ windowVals (colOf df f) w i = (windowIdx w i).map (fun j => f (df.getD j default))
    ∧ rollMean 1 w (colOf df f) i
        = some ((windowVals (colOf df f) w i).sum / (windowVals (colOf df f) w i).length)
    ∧ (∃ m, rollMin 1 w (colOf df f) i = some m
        ∧ m ∈ windowVals (colOf df f) w i
        ∧ ∀ v ∈ windowVals (colOf df f) w i, m ≤ v)
    ∧ (∃ m, rollMax 1 w (colOf df f) i = some m
        ∧ m ∈ windowVals (colOf df f) w i
        ∧ ∀ v ∈ windowVals (colOf df f) w i, v ≤ m)
    ∧ (fillna0 (rollStd 1 w (colOf df f)) i).isSome
    ∧ ((windowVals (colOf df f) w i).length < 2 → fillna0 (rollStd 1 w (colOf df f)) i = some 0) := by
  have hpos := length_windowVals_pos (f := f) hw hi
  refine ⟨?_, windowVals_colOf_eq_map hi default, ?_, ?_, ?_, isSome_fillna0 _ _, ?_⟩
  · intro j
    rw [mem_windowIdx]
    omega
  · simp only [rollMean]
    rw [if_neg (by omega)]
  · simp only [rollMin]
    rw [if_neg (by omega)]
    have hsome := List.isSome_min?_of_mem (mem_windowVals_self (f := f) hw hi)
    obtain ⟨m, hm⟩ := Option.isSome_iff_exists.mp hsome
    refine ⟨m, hm, List.min?_mem (fun a b => min_choice a b) hm, ?_⟩
    exact (List.le_min?_iff (fun a b c => le_min_iff) hm).mp (le_refl m)
  · simp only [rollMax]
    rw [if_neg (by omega)]
    have hsome := List.isSome_max?_of_mem (mem_windowVals_self (f := f) hw hi)
    obtain ⟨m, hm⟩ := Option.isSome_iff_exists.mp hsome
    refine ⟨m, hm, List.max?_mem (fun a b => max_choice a b) hm, ?_⟩
    exact (List.max?_le_iff (fun a b c => max_le_iff) hm).mp (le_refl m)
  · intro h2
    simp only [fillna0, rollStd]
    rw [if_pos (Or.inr h2)]
    rfl

/-- C6 (witness): the theorem instantiated at a 3-row table, the
temperature column, window size 5 and row 0 (whose window holds a
single sample, so the 0-filled std is 0 there). -/
theorem c6_witness :
    (1 ≤ 5) ∧ (0 < (List.replicate 3 probeReading).length) ∧
    ((∀ j, j ∈ windowIdx 5 0 ↔ (0 + 1 - 5 ≤ j ∧ j ≤ 0))
    ∧ windowVals (colOf (List.replicate 3 probeReading) Reading.temperature) 5 0
        = (windowIdx 5 0).map (fun j => Reading.temperature ((List.replicate 3 probeReading).getD j default))
    ∧ rollMean 1 5 (colOf (List.replicate 3 probeReading) Reading.temperature) 0
        = some ((windowVals (colOf (List.replicate 3 probeReading) Reading.temperature) 5 0).sum
            / (windowVals (colOf (List.replicate 3 probeReading) Reading.temperature) 5 0).length)
    ∧ (∃ m, rollMin 1 5 (colOf (List.replicate 3 probeReading) Reading.temperature) 0 = some m
        ∧ m ∈ windowVals (colOf (List.replicate 3 probeReading) Reading.temperature) 5 0
        ∧ ∀ v ∈ windowVals (colOf (List.replicate 3 probeReading) Reading.temperature) 5 0, m ≤ v)
    ∧ (∃ m, rollMax 1 5 (colOf (List.replicate 3 probeReading) Reading.temperature) 0 = some m
        ∧ m ∈ windowVals (colOf (List.replicate 3 probeReading) Reading.temperature) 5 0
        ∧ ∀ v ∈ windowVals (colOf (List.replicate 3 probeReading) Reading.temperature) 5 0, v ≤ m)
    ∧ (fillna0 (rollStd 1 5 (colOf (List.replicate 3 probeReading) Reading.temperature)) 0).isSome
    ∧ ((windowVals (colOf (List.replicate 3 probeReading) Reading.temperature) 5 0).length < 2 →
        fillna0 (rollStd 1 5 (colOf (List.replicate 3 probeReading) Reading.temperature)) 0 = some 0)) :=
  ⟨by decide, by decide,
   c6_rolling_causal (List.replicate 3 probeReading) Reading.temperature 5 0 (by decide) (by decide)⟩

end SmartClassroom
